import Mathlib

set_option autoImplicit false

/-
Verification of the bank-audit core of the chilean-banks-audit-microservice
repository.  The definitions below are a shallow embedding of the
BankAuditService (bank-audit.service.ts): pure analysis functions are
translated directly; the effectful puppeteer/mongo interactions are modelled
by explicit outcome records (Except models a rejected promise), and the
orchestrator auditBank is translated with its try/catch/finally structure
made explicit, recording which results are persisted and how many browser
sessions are opened and closed.
-/

namespace BankAudit

/-- Letter grades of the interface unions (bank.interface.ts, staged after
the doc separator of bank-audit.module.ts): the SSL grade union is A+, A, B,
C, D, F or UNKNOWN; the other analysers use the A to F subset, and the
service never constructs UNKNOWN. -/
inductive Grade where
  | aplus
  | a
  | b
  | c
  | d
  | f
  | unknown
  deriving Repr, DecidableEq

/-- The status union of ISecurityAuditResult in bank.interface.ts: completed,
failed or timeout; the service itself only ever constructs completed and
failed. -/
inductive AuditStatus where
  | completed
  | failed
  | timeout
  deriving Repr, DecidableEq

/-- IChileanBank of bank.interface.ts (staged after the doc separator of
bank-audit.module.ts): optional Mongo id and description, name, code, login
URL and active flag; the optional createdAt and updatedAt Date fields are
wall-clock metadata and are omitted. -/
structure IChileanBank where
  _id : Option String := none
  name : String
  code : String
  loginUrl : String
  description : Option String := none
  active : Bool
  deriving Repr, DecidableEq

/-- ISSLAnalysis of bank.interface.ts, the result record of analyzeSSL; the
optional expiryDate Date field is never written by the service and is
omitted. -/
structure ISSLAnalysis where
  enabled : Bool
  protocol : Option String := none
  validCertificate : Option Bool := none
  issuer : Option String := none
  grade : Grade
  issues : List String
  deriving Repr, DecidableEq

/-- ISecurityHeaders of bank.interface.ts, the result record of
analyzeSecurityHeaders; the raw header Record is kept as an association list
of header name and value. -/
structure ISecurityHeaders where
  strictTransportSecurity : Bool
  contentSecurityPolicy : Bool
  xFrameOptions : Bool
  xContentTypeOptions : Bool
  referrerPolicy : Bool
  permissionsPolicy : Bool
  headers : List (String × String)
  grade : Grade
  deriving Repr, DecidableEq

/-- The sessionManagement sub-record of IAuthenticationAnalysis in
bank.interface.ts: optional timeout, secure-flag and httpOnly-flag fields;
analyzeAuthentication sets the two flags and the failed-audit record of
auditBank leaves all three unset (the empty object literal). -/
structure ISessionManagement where
  timeout : Option Nat := none
  secureFlag : Option Bool := none
  httpOnlyFlag : Option Bool := none
  deriving Repr, DecidableEq

/-- IAuthenticationAnalysis of bank.interface.ts, the result record of
analyzeAuthentication. -/
structure IAuthenticationAnalysis where
  methods : List String
  mfaAvailable : Bool
  mfaTypes : List String
  passwordRequirements : List String
  sessionManagement : ISessionManagement
  grade : Grade
  deriving Repr, DecidableEq

/-- ICSRFAnalysis of bank.interface.ts, the result record of analyzeCSRF;
the tokenType union (hidden-field, header, cookie, unknown) is kept as an
optional string, since the service only ever writes hidden-field or leaves
it unset. -/
structure ICSRFAnalysis where
  tokenPresent : Bool
  tokenType : Option String := none
  tokenValue : Option String := none
  isProtected : Bool
  grade : Grade
  deriving Repr, DecidableEq

/-- ISecurityAuditResult of bank.interface.ts, the audit record persisted by
auditBank; the timestamp Date field is wall-clock metadata and is omitted. -/
structure ISecurityAuditResult where
  bankCode : String
  bankName : String
  loginUrl : String
  ssl : ISSLAnalysis
  headers : ISecurityHeaders
  authentication : IAuthenticationAnalysis
  csrf : ICSRFAnalysis
  recommendations : List String
  riskScore : Nat
  status : AuditStatus
  error : Option String := none
  deriving Repr, DecidableEq

deriving instance DecidableEq for Except

/-- JavaScript String.prototype.includes on the character sequences. -/
def strIncludes (s pat : String) : Bool :=
  decide (List.IsInfix pat.toList s.toList)

/-- JavaScript String.prototype.startsWith on the character sequences. -/
def jsStartsWith (s pre : String) : Bool :=
  pre.toList.isPrefixOf s.toList

/-- JavaScript String.prototype.toLowerCase, character by character. -/
def jsToLower (s : String) : String :=
  String.mk (s.toList.map Char.toLower)

/-- JavaScript String.prototype.toUpperCase, character by character. -/
def jsToUpper (s : String) : String :=
  String.mk (s.toList.map Char.toUpper)

/-- Reading a key of a JavaScript object built with Object.fromEntries from
an entry list: a later entry with the same key overwrites an earlier one,
and a missing key reads as undefined (none). -/
def jsGet (entries : List (String × String)) (key : String) : Option String :=
  List.lookup key entries.reverse

/-- JavaScript truthiness of a string read from an object: undefined (and
null) and the empty string are falsy, every other string is truthy; this is
the double-negation coercion of the source. -/
def truthyStr : Option String → Bool
  | none => false
  | some v => v != ""

/-- Negotiated-connection metadata of a puppeteer HTTPResponse
(securityDetails): protocol and issuer of the certificate. -/
structure SecurityDetails where
  protocol : String
  issuer : String
  deriving Repr, DecidableEq

/-- The slice of a puppeteer HTTPResponse read by analyzeSSL:
securityDetails() is null when certificate metadata is unavailable. -/
structure HTTPResponse where
  securityDetails : Option SecurityDetails
  deriving Repr, DecidableEq

/-- A browser cookie as read by analyzeAuthentication. -/
structure Cookie where
  secure : Bool
  httpOnly : Bool
  deriving Repr, DecidableEq

/-- The slice of a puppeteer Page consumed by auditBank and the extractors.
Each field is the outcome of one page primitive the service awaits; Except
models a rejected promise. passwordField and usernameField record whether
the respective selector query found an element; content is the page HTML;
csrfEval is the value attribute of the first input whose name matches the
csrf and token selector list (rejecting when no element matches, as page
dollar-eval does); gotoOutcome is the navigation result (none models a null
response object); capturedResponseHeaders is the header map accumulated by
the response listener for the login URL. -/
structure Page where
  passwordField : Except String Bool
  usernameField : Except String Bool
  content : Except String String
  cookies : Except String (List Cookie)
  csrfEval : Except String String
  gotoOutcome : Except String (Option HTTPResponse)
  capturedResponseHeaders : List (String × String)
  deriving Repr, DecidableEq

/-- Shallow embedding of BankAuditService.analyzeSSL.  The source starts with
an empty issue list and grade A+, short-circuits for a non-https URL with the
disabled F record, degrades to C when securityDetails() is null, and
otherwise reports the enabled record with the negotiated metadata. -/
def analyzeSSL (response : HTTPResponse) (url : String) : ISSLAnalysis :=
  let isHTTPS := jsStartsWith url "https://"
  if !isHTTPS then
    { enabled := false
      grade := Grade.f
      issues := ["CRITICAL: Login page not served over HTTPS"] }
  else
    let securityDetails := response.securityDetails
    let issues : List String :=
      match securityDetails with
      | none => ["Unable to retrieve SSL certificate details"]
      | some _ => []
    let grade : Grade :=
      match securityDetails with
      | none => Grade.c
      | some _ => Grade.aplus
    { enabled := true
      protocol := securityDetails.map (fun sd => sd.protocol)
      validCertificate := some true
      issuer := securityDetails.map (fun sd => sd.issuer)
      grade := grade
      issues := issues }

/-- Shallow embedding of BankAuditService.analyzeSecurityHeaders: lower-case
the header names, read the six presence flags by truthiness, compute the
weighted score, and bucket it into a grade (the source initialises grade to
F and overwrites it through the threshold chain). -/
def analyzeSecurityHeaders (headers : List (String × String)) : ISecurityHeaders :=
  let lowerHeaders := headers.map (fun kv => (jsToLower kv.1, kv.2))
  let strictTransportSecurity := truthyStr (jsGet lowerHeaders "strict-transport-security")
  let contentSecurityPolicy := truthyStr (jsGet lowerHeaders "content-security-policy")
  let xFrameOptions := truthyStr (jsGet lowerHeaders "x-frame-options")
  let xContentTypeOptions := truthyStr (jsGet lowerHeaders "x-content-type-options")
  let referrerPolicy := truthyStr (jsGet lowerHeaders "referrer-policy")
  let permissionsPolicy := truthyStr (jsGet lowerHeaders "permissions-policy")
  let score : Nat :=
    (if strictTransportSecurity then 20 else 0) +
    (if contentSecurityPolicy then 25 else 0) +
    (if xFrameOptions then 15 else 0) +
    (if xContentTypeOptions then 15 else 0) +
    (if referrerPolicy then 10 else 0) +
    (if permissionsPolicy then 15 else 0)
  let grade : Grade :=
    if score ≥ 90 then Grade.a
    else if score ≥ 75 then Grade.b
    else if score ≥ 60 then Grade.c
    else if score ≥ 40 then Grade.d
    else Grade.f
  { strictTransportSecurity := strictTransportSecurity
    contentSecurityPolicy := contentSecurityPolicy
    xFrameOptions := xFrameOptions
    xContentTypeOptions := xContentTypeOptions
    referrerPolicy := referrerPolicy
    permissionsPolicy := permissionsPolicy
    headers := lowerHeaders
    grade := grade }

/-- Pure core of BankAuditService.analyzeAuthentication, applied to the
values of the four page reads in their source order: the username-password
method is recorded when both field queries matched, MFA availability is the
keyword scan of the page content, and the session flags are the cookie scan. -/
def authFromSignals (hasPasswordField hasUsernameField : Bool)
    (pageContent : String) (cookies : List Cookie) : IAuthenticationAnalysis :=
  let methods : List String :=
    if hasPasswordField && hasUsernameField then ["username-password"] else []
  let mfaAvailable :=
    strIncludes pageContent "MFA" ||
    strIncludes pageContent "2FA" ||
    strIncludes pageContent "autenticación de dos factores" ||
    strIncludes pageContent "segundo factor" ||
    strIncludes pageContent "token" ||
    strIncludes pageContent "SMS" ||
    strIncludes pageContent "código"
  let mfaTypes : List String :=
    if mfaAvailable then ["Detected via page content analysis"] else []
  let sessionManagement : ISessionManagement :=
    { secureFlag := some (cookies.any (fun c => c.secure))
      httpOnlyFlag := some (cookies.any (fun c => c.httpOnly)) }
  let grade : Grade :=
    if methods.length > 0 && mfaAvailable then Grade.a
    else if methods.length > 0 then Grade.c
    else Grade.f
  { methods := methods
    mfaAvailable := mfaAvailable
    mfaTypes := mfaTypes
    passwordRequirements := []
    sessionManagement := sessionManagement
    grade := grade }

/-- Shallow embedding of BankAuditService.analyzeAuthentication: the four
awaited page primitives in source order (password query, username query,
content, cookies); a rejection of any of them propagates, since the source
has no local handler. -/
def analyzeAuthentication (page : Page) : Except String IAuthenticationAnalysis :=
  match page.passwordField with
  | Except.error e => Except.error e
  | Except.ok hasPasswordField =>
    match page.usernameField with
    | Except.error e => Except.error e
    | Except.ok hasUsernameField =>
      match page.content with
      | Except.error e => Except.error e
      | Except.ok pageContent =>
        match page.cookies with
        | Except.error e => Except.error e
        | Except.ok cookies =>
          Except.ok (authFromSignals hasPasswordField hasUsernameField pageContent cookies)

/-- Shallow embedding of BankAuditService.analyzeCSRF: the page dollar-eval
is guarded by a catch that maps every rejection to null, after which the
token fields are derived from the truthiness of the read value.  The
function is total: no extraction error escapes it. -/
def analyzeCSRF (page : Page) : ICSRFAnalysis :=
  let csrfToken : Option String :=
    match page.csrfEval with
    | Except.ok v => some v
    | Except.error _ => none
  let tokenPresent := truthyStr csrfToken
  let isProtected := tokenPresent
  { tokenPresent := tokenPresent
    tokenType := if tokenPresent then some "hidden-field" else none
    tokenValue := if tokenPresent then some "[PRESENT]" else none
    isProtected := isProtected
    grade := if isProtected then Grade.a else Grade.f }

/-- One penalty step of calculateRiskScore: the score increment and the
recommendation it pushes, kept as a pair so the additive accumulation of the
source is a sum of the pairs in the source order. -/
abbrev Penalty := Nat × List String

/-- Shallow embedding of BankAuditService.calculateRiskScore: the source
accumulates a mutable score and recommendation list through six conditional
penalty blocks in fixed order (SSL, HSTS, CSP, X-Frame-Options, MFA, CSRF)
and, if no recommendation was pushed, replaces the empty list with the single
positive message. -/
def calculateRiskScore (ssl : ISSLAnalysis) (headers : ISecurityHeaders)
    (authentication : IAuthenticationAnalysis) (csrf : ICSRFAnalysis) :
    Nat × List String :=
  let sslPart : Penalty :=
    if !ssl.enabled then (40, ["CRITICAL: Implement HTTPS for login page"])
    else if ssl.issues.length > 0 then (10, ["Review SSL/TLS configuration issues"])
    else (0, [])
  let hstsPart : Penalty :=
    if !headers.strictTransportSecurity then
      (10, ["Implement HSTS (Strict-Transport-Security header)"])
    else (0, [])
  let cspPart : Penalty :=
    if !headers.contentSecurityPolicy then
      (10, ["Implement Content Security Policy (CSP)"])
    else (0, [])
  let xfoPart : Penalty :=
    if !headers.xFrameOptions then
      (5, ["Add X-Frame-Options header to prevent clickjacking"])
    else (0, [])
  let mfaPart : Penalty :=
    if !authentication.mfaAvailable then
      (15, ["Implement Multi-Factor Authentication (MFA/2FA)"])
    else (0, [])
  let csrfPart : Penalty :=
    if !csrf.isProtected then (10, ["Implement CSRF protection tokens"])
    else (0, [])
  let riskScore := sslPart.1 + hstsPart.1 + cspPart.1 + xfoPart.1 + mfaPart.1 + csrfPart.1
  let recommendations :=
    sslPart.2 ++ hstsPart.2 ++ cspPart.2 ++ xfoPart.2 ++ mfaPart.2 ++ csrfPart.2
  if recommendations.isEmpty then
    (riskScore, ["✅ Excellent security posture!"])
  else
    (riskScore, recommendations)

/-- Shallow embedding of BankAuditService.getBankByCode: find the bank whose
code equals the upper-cased request code in the banks collection (modelled as
a list; the collection has a unique index on code, so the first match is the
match); a missing bank rejects with the NotFoundException message. -/
def getBankByCode (banks : List IChileanBank) (code : String) :
    Except String IChileanBank :=
  match banks.find? (fun b => b.code == jsToUpper code) with
  | some bank => Except.ok bank
  | none => Except.error ("Bank with code " ++ code ++ " not found")

/-- The environment of one auditBank run: the banks collection and the
outcomes of the two browser-session primitives the service awaits before and
while creating the page (puppeteer.launch, and browser.newPage together with
the user-agent and interception setup).  Persistence (insertOne on the
audits collection) is modelled as a recorder that always succeeds. -/
structure AuditEnv where
  banks : List IChileanBank
  launchOutcome : Except String Unit
  newPageOutcome : Except String Page
  deriving Repr

/-- The body of the try block of auditBank, from browser.newPage to the
assembled completed result: navigation (a null response rejects with the
no-response message), the four extractor calls in source order, the risk
computation and the completed audit record.  Any rejection propagates to the
catch of auditBank. -/
def runExtraction (env : AuditEnv) (bank : IChileanBank) :
    Except String ISecurityAuditResult :=
  match env.newPageOutcome with
  | Except.error e => Except.error e
  | Except.ok page =>
    match page.gotoOutcome with
    | Except.error e => Except.error e
    | Except.ok none => Except.error "Failed to load page - no response received"
    | Except.ok (some response) =>
      let ssl := analyzeSSL response bank.loginUrl
      let headers := analyzeSecurityHeaders page.capturedResponseHeaders
      match analyzeAuthentication page with
      | Except.error e => Except.error e
      | Except.ok authentication =>
        let csrf := analyzeCSRF page
        let assessment := calculateRiskScore ssl headers authentication csrf
        Except.ok { bankCode := bank.code
                    bankName := bank.name
                    loginUrl := bank.loginUrl
                    ssl := ssl
                    headers := headers
                    authentication := authentication
                    csrf := csrf
                    recommendations := assessment.2
                    riskScore := assessment.1
                    status := AuditStatus.completed }

/-- The failed audit record built in the catch block of auditBank: hard-coded
degraded sub-results (TLS disabled with grade F, all header flags false with
grade F, empty authentication with grade F, unprotected CSRF with grade F),
the retry recommendation, risk score 100, status failed and the triggering
error message. -/
def mkFailedResult (bank : IChileanBank) (errorMessage : String) :
    ISecurityAuditResult :=
  { bankCode := bank.code
    bankName := bank.name
    loginUrl := bank.loginUrl
    ssl := { enabled := false, grade := Grade.f, issues := ["Audit failed"] }
    headers := { strictTransportSecurity := false
                 contentSecurityPolicy := false
                 xFrameOptions := false
                 xContentTypeOptions := false
                 referrerPolicy := false
                 permissionsPolicy := false
                 headers := []
                 grade := Grade.f }
    authentication := { methods := []
                        mfaAvailable := false
                        mfaTypes := []
                        passwordRequirements := []
                        sessionManagement := {}
                        grade := Grade.f }
    csrf := { tokenPresent := false, isProtected := false, grade := Grade.f }
    recommendations := ["Audit failed - please retry"]
    riskScore := 100
    status := AuditStatus.failed
    error := some errorMessage }

/-- Observable outcome of one auditBank call: the returned or re-raised
value, the audit records persisted with insertOne in order, and how many
browser sessions were opened (puppeteer.launch succeeded) and closed
(browser.close in the finally block). -/
structure AuditOutcome where
  result : Except String ISecurityAuditResult
  persisted : List ISecurityAuditResult
  sessionsOpened : Nat
  sessionsClosed : Nat
  deriving Repr

/-- Shallow embedding of BankAuditService.auditBank.  The bank lookup and
the browser launch happen before the try block: if either rejects, the error
propagates with nothing persisted and no session to close.  Once the browser
is launched, the try block runs runExtraction; on success the completed
record is persisted and returned, on any rejection the catch block persists
the failed record and re-raises the error; the finally block closes the
browser on both paths. -/
def auditBank (env : AuditEnv) (bankCode : String) : AuditOutcome :=
  match getBankByCode env.banks bankCode with
  | Except.error e =>
    { result := Except.error e, persisted := [], sessionsOpened := 0, sessionsClosed := 0 }
  | Except.ok bank =>
    match env.launchOutcome with
    | Except.error e =>
      { result := Except.error e, persisted := [], sessionsOpened := 0, sessionsClosed := 0 }
    | Except.ok _ =>
      match runExtraction env bank with
      | Except.ok auditResult =>
        { result := Except.ok auditResult
          persisted := [auditResult]
          sessionsOpened := 1
          sessionsClosed := 1 }
      | Except.error e =>
        { result := Except.error e
          persisted := [mkFailedResult bank e]
          sessionsOpened := 1
          sessionsClosed := 1 }

/-- Spec-side weighted header score, written from the words of the spec:
HSTS=20, CSP=25, X-Frame-Options=15, X-Content-Type-Options=15,
Referrer-Policy=10, Permissions-Policy=15. -/
def headerWeightedScore (h : ISecurityHeaders) : Nat :=
  (if h.strictTransportSecurity then 20 else 0) +
  (if h.contentSecurityPolicy then 25 else 0) +
  (if h.xFrameOptions then 15 else 0) +
  (if h.xContentTypeOptions then 15 else 0) +
  (if h.referrerPolicy then 10 else 0) +
  (if h.permissionsPolicy then 15 else 0)

/-- Spec-side grade bucketing, written from the words of the spec: score at
least 90 gives A, at least 75 gives B, at least 60 gives C, at least 40
gives D, anything lower gives F. -/
def gradeOfHeaderScore (score : Nat) : Grade :=
  if score ≥ 90 then Grade.a
  else if score ≥ 75 then Grade.b
  else if score ≥ 60 then Grade.c
  else if score ≥ 40 then Grade.d
  else Grade.f

/-- Raw header map carrying exactly HSTS and CSP, used for the concrete
header-grade check. -/
def hstsCspHeaders : List (String × String) :=
  [("Strict-Transport-Security", "max-age=31536000"),
   ("Content-Security-Policy", "default-src self")]

/-- Concrete bank fixture for the orchestrator runs. -/
def bankW : IChileanBank :=
  { name := "Test Bank", code := "TEST", loginUrl := "https://test.bank.cl", active := true }

/-- Concrete response fixture with certificate metadata present. -/
def respW : HTTPResponse :=
  { securityDetails := some { protocol := "TLS 1.3", issuer := "DigiCert Inc" } }

/-- Concrete response fixture with certificate metadata absent. -/
def respNoneW : HTTPResponse :=
  { securityDetails := none }

/-- Page fixture in which navigation succeeded and every primitive succeeds
except the content read of the authentication extractor, which rejects. -/
def pageAuthFail : Page :=
  { passwordField := Except.ok true
    usernameField := Except.ok true
    content := Except.error "Protocol error"
    cookies := Except.ok []
    csrfEval := Except.ok "tok123"
    gotoOutcome := Except.ok (some respW)
    capturedResponseHeaders := [("strict-transport-security", "max-age=1")] }

/-- Environment in which the bank resolves, the browser launches, and only
the authentication extractor fails. -/
def envAuthFail : AuditEnv :=
  { banks := [bankW]
    launchOutcome := Except.ok ()
    newPageOutcome := Except.ok pageAuthFail }

/-- Environment in which the bank resolves but the browser launch rejects. -/
def envLaunchFail : AuditEnv :=
  { banks := [bankW]
    launchOutcome := Except.error "Failed to launch the browser process"
    newPageOutcome := Except.error "no browser" }

/-- Page fixture in which every primitive succeeds except the CSRF query,
which rejects because no element matches the selector. -/
def pageGood : Page :=
  { passwordField := Except.ok true
    usernameField := Except.ok true
    content := Except.ok "ingrese su token de seguridad"
    cookies := Except.ok [{ secure := true, httpOnly := true }]
    csrfEval := Except.error "failed to find element matching selector"
    gotoOutcome := Except.ok (some respW)
    capturedResponseHeaders :=
      [("Strict-Transport-Security", "max-age=1"), ("Content-Security-Policy", "x"),
       ("X-Frame-Options", "DENY"), ("X-Content-Type-Options", "nosniff"),
       ("Referrer-Policy", "none"), ("Permissions-Policy", "x")] }

/-- Environment in which only the CSRF query fails. -/
def envGood : AuditEnv :=
  { banks := [bankW]
    launchOutcome := Except.ok ()
    newPageOutcome := Except.ok pageGood }

/-- Page fixture whose CSRF query finds an element whose value attribute is
the empty string. -/
def pageEmptyTok : Page :=
  { passwordField := Except.ok true
    usernameField := Except.ok true
    content := Except.ok ""
    cookies := Except.ok []
    csrfEval := Except.ok ""
    gotoOutcome := Except.ok (some respW)
    capturedResponseHeaders := [] }

/-- Page fixture whose CSRF query finds an element with a non-empty value. -/
def pageTokenW : Page :=
  { passwordField := Except.ok true
    usernameField := Except.ok true
    content := Except.ok ""
    cookies := Except.ok []
    csrfEval := Except.ok "abc123"
    gotoOutcome := Except.ok (some respW)
    capturedResponseHeaders := [] }

/-- Environment with an empty banks collection, for the lookup-failure run. -/
def envEmptyBanks : AuditEnv :=
  { banks := []
    launchOutcome := Except.ok ()
    newPageOutcome := Except.error "unused" }

/-- Authentication result of the pageGood fixture signals. -/
def authGoodW : IAuthenticationAnalysis :=
  authFromSignals true true "ingrese su token de seguridad" [{ secure := true, httpOnly := true }]

/-- C3: for the all-bad signal combination (TLS disabled, all six header
flags false, no authentication methods and no MFA, CSRF not protected) the
risk scorer returns risk score 90, at least five recommendations, the first
of which is the TLS/HTTPS one, and the recommendations are exactly the six
penalty messages in the fixed source order (SSL, then headers, then auth,
then CSRF). -/
theorem riskScore_allBad_eq_90 (ssl : ISSLAnalysis) (headers : ISecurityHeaders)
    (authentication : IAuthenticationAnalysis) (csrf : ICSRFAnalysis)
    (hssl : ssl.enabled = false)
    (hsts : headers.strictTransportSecurity = false)
    (hcsp : headers.contentSecurityPolicy = false)
    (hxfo : headers.xFrameOptions = false)
    (hxcto : headers.xContentTypeOptions = false)
    (hrp : headers.referrerPolicy = false)
    (hpp : headers.permissionsPolicy = false)
    (hmeth : authentication.methods = [])
    (hmfa : authentication.mfaAvailable = false)
    (hcsrf : csrf.isProtected = false) :
    (calculateRiskScore ssl headers authentication csrf).1 = 90 ∧
    5 ≤ (calculateRiskScore ssl headers authentication csrf).2.length ∧
    (calculateRiskScore ssl headers authentication csrf).2.head? =
      some "CRITICAL: Implement HTTPS for login page" ∧
    (calculateRiskScore ssl headers authentication csrf).2 =
      ["CRITICAL: Implement HTTPS for login page",
       "Implement HSTS (Strict-Transport-Security header)",
       "Implement Content Security Policy (CSP)",
       "Add X-Frame-Options header to prevent clickjacking",
       "Implement Multi-Factor Authentication (MFA/2FA)",
       "Implement CSRF protection tokens"] := by
  have hcalc : calculateRiskScore ssl headers authentication csrf =
      (90, ["CRITICAL: Implement HTTPS for login page",
            "Implement HSTS (Strict-Transport-Security header)",
            "Implement Content Security Policy (CSP)",
            "Add X-Frame-Options header to prevent clickjacking",
            "Implement Multi-Factor Authentication (MFA/2FA)",
            "Implement CSRF protection tokens"]) := by
    simp [calculateRiskScore, hssl, hsts, hcsp, hxfo, hmfa, hcsrf]
  rw [hcalc]
  refine ⟨rfl, by decide, rfl, rfl⟩

/-- Witness for riskScore_allBad_eq_90 at concrete all-bad records. -/
theorem riskScore_allBad_eq_90_witness :
    (calculateRiskScore
      { enabled := false, grade := Grade.f, issues := ["no https"] }
      { strictTransportSecurity := false, contentSecurityPolicy := false,
        xFrameOptions := false, xContentTypeOptions := false,
        referrerPolicy := false, permissionsPolicy := false,
        headers := [], grade := Grade.f }
      { methods := [], mfaAvailable := false, mfaTypes := [],
        passwordRequirements := [], sessionManagement := {}, grade := Grade.f }
      { tokenPresent := false, isProtected := false, grade := Grade.f }).1 = 90 ∧
    5 ≤ (calculateRiskScore
      { enabled := false, grade := Grade.f, issues := ["no https"] }
      { strictTransportSecurity := false, contentSecurityPolicy := false,
        xFrameOptions := false, xContentTypeOptions := false,
        referrerPolicy := false, permissionsPolicy := false,
        headers := [], grade := Grade.f }
      { methods := [], mfaAvailable := false, mfaTypes := [],
        passwordRequirements := [], sessionManagement := {}, grade := Grade.f }
      { tokenPresent := false, isProtected := false, grade := Grade.f }).2.length ∧
    (calculateRiskScore
      { enabled := false, grade := Grade.f, issues := ["no https"] }
      { strictTransportSecurity := false, contentSecurityPolicy := false,
        xFrameOptions := false, xContentTypeOptions := false,
        referrerPolicy := false, permissionsPolicy := false,
        headers := [], grade := Grade.f }
      { methods := [], mfaAvailable := false, mfaTypes := [],
        passwordRequirements := [], sessionManagement := {}, grade := Grade.f }
      { tokenPresent := false, isProtected := false, grade := Grade.f }).2.head? =
      some "CRITICAL: Implement HTTPS for login page" ∧
    (calculateRiskScore
      { enabled := false, grade := Grade.f, issues := ["no https"] }
      { strictTransportSecurity := false, contentSecurityPolicy := false,
        xFrameOptions := false, xContentTypeOptions := false,
        referrerPolicy := false, permissionsPolicy := false,
        headers := [], grade := Grade.f }
      { methods := [], mfaAvailable := false, mfaTypes := [],
        passwordRequirements := [], sessionManagement := {}, grade := Grade.f }
      { tokenPresent := false, isProtected := false, grade := Grade.f }).2 =
      ["CRITICAL: Implement HTTPS for login page",
       "Implement HSTS (Strict-Transport-Security header)",
       "Implement Content Security Policy (CSP)",
       "Add X-Frame-Options header to prevent clickjacking",
       "Implement Multi-Factor Authentication (MFA/2FA)",
       "Implement CSRF protection tokens"] :=
  riskScore_allBad_eq_90 _ _ _ _ rfl rfl rfl rfl rfl rfl rfl rfl rfl rfl

/-- C4: for the all-good signal combination (TLS enabled with no issues, all
six header flags true, authentication methods non-empty with MFA available,
CSRF protected) the risk scorer returns risk score 0 and the single positive
excellent-security-posture message. -/
theorem riskScore_allGood_eq_0 (ssl : ISSLAnalysis) (headers : ISecurityHeaders)
    (authentication : IAuthenticationAnalysis) (csrf : ICSRFAnalysis)
    (hssl : ssl.enabled = true)
    (hiss : ssl.issues = [])
    (hsts : headers.strictTransportSecurity = true)
    (hcsp : headers.contentSecurityPolicy = true)
    (hxfo : headers.xFrameOptions = true)
    (hxcto : headers.xContentTypeOptions = true)
    (hrp : headers.referrerPolicy = true)
    (hpp : headers.permissionsPolicy = true)
    (hmeth : authentication.methods ≠ [])
    (hmfa : authentication.mfaAvailable = true)
    (hcsrf : csrf.isProtected = true) :
    (calculateRiskScore ssl headers authentication csrf).1 = 0 ∧
    (calculateRiskScore ssl headers authentication csrf).2 =
      ["✅ Excellent security posture!"] := by
  have hcalc : calculateRiskScore ssl headers authentication csrf =
      (0, ["✅ Excellent security posture!"]) := by
    simp [calculateRiskScore, hssl, hiss, hsts, hcsp, hxfo, hmfa, hcsrf]
  rw [hcalc]
  exact ⟨rfl, rfl⟩

/-- Witness for riskScore_allGood_eq_0 at concrete all-good records. -/
theorem riskScore_allGood_eq_0_witness :
    (calculateRiskScore
      { enabled := true, grade := Grade.aplus, issues := [] }
      { strictTransportSecurity := true, contentSecurityPolicy := true,
        xFrameOptions := true, xContentTypeOptions := true,
        referrerPolicy := true, permissionsPolicy := true,
        headers := [], grade := Grade.a }
      { methods := ["username-password"], mfaAvailable := true, mfaTypes := [],
        passwordRequirements := [], sessionManagement := {}, grade := Grade.a }
      { tokenPresent := true, isProtected := true, grade := Grade.a }).1 = 0 ∧
    (calculateRiskScore
      { enabled := true, grade := Grade.aplus, issues := [] }
      { strictTransportSecurity := true, contentSecurityPolicy := true,
        xFrameOptions := true, xContentTypeOptions := true,
        referrerPolicy := true, permissionsPolicy := true,
        headers := [], grade := Grade.a }
      { methods := ["username-password"], mfaAvailable := true, mfaTypes := [],
        passwordRequirements := [], sessionManagement := {}, grade := Grade.a }
      { tokenPresent := true, isProtected := true, grade := Grade.a }).2 =
      ["✅ Excellent security posture!"] :=
  riskScore_allGood_eq_0 _ _ _ _ rfl rfl rfl rfl rfl rfl rfl rfl (by decide) rfl rfl

/-- C9: for every combination of the four signal records the risk score lies
between 0 and 90 inclusive: the 40-point and 10-point TLS penalties are on
mutually exclusive branches of the same conditional, so the applicable
penalties can sum to at most 40+10+10+5+15+10 = 90, with no clamp needed. -/
theorem riskScore_bounded_0_90 (ssl : ISSLAnalysis) (headers : ISecurityHeaders)
    (authentication : IAuthenticationAnalysis) (csrf : ICSRFAnalysis) :
    0 ≤ (calculateRiskScore ssl headers authentication csrf).1 ∧
    (calculateRiskScore ssl headers authentication csrf).1 ≤ 90 := by
  refine ⟨Nat.zero_le _, ?_⟩
  simp only [calculateRiskScore]
  split_ifs <;> simp

/-- C5: for every raw header map the header inspector grade is the bucketing
of the weighted sum over the six presence flags (HSTS=20, CSP=25,
X-Frame-Options=15, X-Content-Type-Options=15, Referrer-Policy=10,
Permissions-Policy=15; at least 90 gives A, 75 B, 60 C, 40 D, else F), and a
raw map carrying exactly HSTS and CSP sets exactly those two flags, scores
45 and grades D. -/
theorem headerGrade_weighted_bucketed (raw : List (String × String)) :
    (analyzeSecurityHeaders raw).grade =
      gradeOfHeaderScore (headerWeightedScore (analyzeSecurityHeaders raw)) ∧
    (analyzeSecurityHeaders hstsCspHeaders).strictTransportSecurity = true ∧
    (analyzeSecurityHeaders hstsCspHeaders).contentSecurityPolicy = true ∧
    (analyzeSecurityHeaders hstsCspHeaders).xFrameOptions = false ∧
    (analyzeSecurityHeaders hstsCspHeaders).xContentTypeOptions = false ∧
    (analyzeSecurityHeaders hstsCspHeaders).referrerPolicy = false ∧
    (analyzeSecurityHeaders hstsCspHeaders).permissionsPolicy = false ∧
    headerWeightedScore (analyzeSecurityHeaders hstsCspHeaders) = 45 ∧
    (analyzeSecurityHeaders hstsCspHeaders).grade = Grade.d :=
  ⟨rfl, by decide, by decide, by decide, by decide, by decide, by decide,
   by decide, by decide⟩

/-- Grade characterisation of the pure authentication core, for every
combination of field-query results, page content and cookies. -/
theorem authFromSignals_grade_spec (p u : Bool) (content : String)
    (cookies : List Cookie) :
    ((authFromSignals p u content cookies).grade = Grade.a ↔
      ((authFromSignals p u content cookies).methods ≠ [] ∧
        (authFromSignals p u content cookies).mfaAvailable = true)) ∧
    ((authFromSignals p u content cookies).methods ≠ [] →
      (authFromSignals p u content cookies).mfaAvailable = false →
      (authFromSignals p u content cookies).grade = Grade.c) ∧
    ((authFromSignals p u content cookies).methods = [] →
      (authFromSignals p u content cookies).grade = Grade.f) := by
  cases p <;> cases u <;>
    cases hm : (strIncludes content "MFA" || strIncludes content "2FA" ||
      strIncludes content "autenticación de dos factores" ||
      strIncludes content "segundo factor" || strIncludes content "token" ||
      strIncludes content "SMS" || strIncludes content "código") <;>
    simp [authFromSignals, hm]

/-- Every successfully extracted authentication result is the pure core
applied to the four read values. -/
theorem analyzeAuthentication_ok_shape (page : Page) (r : IAuthenticationAnalysis)
    (h : analyzeAuthentication page = Except.ok r) :
    ∃ p u content cookies, page.passwordField = Except.ok p ∧
      page.usernameField = Except.ok u ∧ page.content = Except.ok content ∧
      page.cookies = Except.ok cookies ∧ r = authFromSignals p u content cookies := by
  unfold analyzeAuthentication at h
  rcases hp : page.passwordField with e | p <;> rw [hp] at h
  · exact absurd h (by simp)
  rcases hu : page.usernameField with e | u <;> rw [hu] at h
  · exact absurd h (by simp)
  rcases hc : page.content with e | content <;> rw [hc] at h
  · exact absurd h (by simp)
  rcases hk : page.cookies with e | cookies <;> rw [hk] at h
  · exact absurd h (by simp)
  exact ⟨p, u, content, cookies, rfl, rfl, rfl, rfl, (Except.ok.inj h).symm⟩

/-- C6: for every page whose authentication extraction succeeds, the grade
is A exactly when the detected methods list is non-empty and MFA is
available; it is C when methods are detected without MFA; and it is F
whenever no method is detected (so grade A is never returned without a
detected method). -/
theorem authGrade_A_iff_methods_and_mfa (page : Page) (r : IAuthenticationAnalysis)
    (h : analyzeAuthentication page = Except.ok r) :
    (r.grade = Grade.a ↔ (r.methods ≠ [] ∧ r.mfaAvailable = true)) ∧
    (r.methods ≠ [] → r.mfaAvailable = false → r.grade = Grade.c) ∧
    (r.methods = [] → r.grade = Grade.f) := by
  obtain ⟨p, u, content, cookies, _, _, _, _, hr⟩ :=
    analyzeAuthentication_ok_shape page r h
  rw [hr]
  exact authFromSignals_grade_spec p u content cookies

/-- Witness for authGrade_A_iff_methods_and_mfa at the pageGood fixture. -/
theorem authGrade_A_iff_methods_and_mfa_witness :
    (authGoodW.grade = Grade.a ↔ (authGoodW.methods ≠ [] ∧ authGoodW.mfaAvailable = true)) ∧
    (authGoodW.methods ≠ [] → authGoodW.mfaAvailable = false → authGoodW.grade = Grade.c) ∧
    (authGoodW.methods = [] → authGoodW.grade = Grade.f) :=
  authGrade_A_iff_methods_and_mfa pageGood authGoodW rfl

/-- C7: every TLS result the service produces with enabled=false has grade
F: for a URL that is not https the inspector short-circuits to the disabled
record with grade F and a non-empty issue list without reading the response
metadata (the result is the same for any two responses), and the TLS record
embedded in the failed audit result is likewise disabled with grade F. -/
theorem tls_disabled_implies_gradeF (response response2 : HTTPResponse)
    (url : String) (bank : IChileanBank) (e : String) :
    ((analyzeSSL response url).enabled = false → (analyzeSSL response url).grade = Grade.f) ∧
    (jsStartsWith url "https://" = false →
      (analyzeSSL response url).enabled = false ∧
      (analyzeSSL response url).grade = Grade.f ∧
      (analyzeSSL response url).issues ≠ [] ∧
      analyzeSSL response url = analyzeSSL response2 url) ∧
    ((mkFailedResult bank e).ssl.enabled = false ∧
      (mkFailedResult bank e).ssl.grade = Grade.f) := by
  refine ⟨?_, ?_, rfl, rfl⟩
  · intro h
    by_cases hs : jsStartsWith url "https://"
    · simp [analyzeSSL, hs] at h
    · simp [analyzeSSL, hs]
  · intro hs
    simp [analyzeSSL, hs]

/-- Witness for tls_disabled_implies_gradeF at a concrete http URL. -/
theorem tls_disabled_implies_gradeF_witness :
    ((analyzeSSL respW "http://test.bank.cl").enabled = false ∧
      (analyzeSSL respW "http://test.bank.cl").grade = Grade.f ∧
      (analyzeSSL respW "http://test.bank.cl").issues ≠ [] ∧
      analyzeSSL respW "http://test.bank.cl" = analyzeSSL respNoneW "http://test.bank.cl") ∧
    (analyzeSSL respW "http://test.bank.cl").grade = Grade.f :=
  ⟨(tls_disabled_implies_gradeF respW respNoneW "http://test.bank.cl" bankW "boom").2.1
      (by decide),
   (tls_disabled_implies_gradeF respW respNoneW "http://test.bank.cl" bankW "boom").1
      (by decide)⟩

/-- C8 counterexample: a page whose CSRF query finds an element (the read
succeeds) whose value attribute is the empty string; the inspector still
reports the token absent, unprotected, grade F, because the source tests the
truthiness of the read value, not the presence of the element. -/
theorem csrf_emptyValue_counterexample :
    pageEmptyTok.csrfEval = Except.ok "" ∧
    (analyzeCSRF pageEmptyTok).tokenPresent = false ∧
    (analyzeCSRF pageEmptyTok).isProtected = false ∧
    (analyzeCSRF pageEmptyTok).grade = Grade.f :=
  ⟨rfl, rfl, rfl, rfl⟩

/-- C8 amended: the CSRF inspector reports token present, protected and
grade A exactly when the query succeeds with a non-empty (truthy) value, and
reports token absent, unprotected and grade F whenever the query rejects or
reads an empty value; the inspector is a total function of the page, so no
extraction error propagates. -/
theorem csrf_truthyToken_characterization (page : Page) :
    ((∃ v, page.csrfEval = Except.ok v ∧ v ≠ "") →
      (analyzeCSRF page).tokenPresent = true ∧
      (analyzeCSRF page).isProtected = true ∧
      (analyzeCSRF page).grade = Grade.a) ∧
    ((∀ v, page.csrfEval = Except.ok v → v = "") →
      (analyzeCSRF page).tokenPresent = false ∧
      (analyzeCSRF page).isProtected = false ∧
      (analyzeCSRF page).grade = Grade.f) := by
  constructor
  · rintro ⟨v, hv, hne⟩
    simp [analyzeCSRF, hv, truthyStr, hne]
  · intro hall
    rcases he : page.csrfEval with err | v
    · simp [analyzeCSRF, he, truthyStr]
    · have hv : v = "" := hall v he
      subst hv
      simp [analyzeCSRF, he, truthyStr]

/-- Witness for csrf_truthyToken_characterization at the fixtures with a
non-empty token and with a rejecting query. -/
theorem csrf_truthyToken_characterization_witness :
    ((analyzeCSRF pageTokenW).tokenPresent = true ∧
      (analyzeCSRF pageTokenW).isProtected = true ∧
      (analyzeCSRF pageTokenW).grade = Grade.a) ∧
    ((analyzeCSRF pageGood).tokenPresent = false ∧
      (analyzeCSRF pageGood).isProtected = false ∧
      (analyzeCSRF pageGood).grade = Grade.f) :=
  ⟨(csrf_truthyToken_characterization pageTokenW).1 ⟨"abc123", rfl, by decide⟩,
   (csrf_truthyToken_characterization pageGood).2 (by intro v hv; simp [pageGood] at hv)⟩

/-- C10: when no bank carries the requested code, auditBank raises the
not-found error before any session work: no browser session is opened, and
no audit result is persisted. -/
theorem targetNotFound_no_session_no_persist (env : AuditEnv) (code : String)
    (h : env.banks.find? (fun b => b.code == jsToUpper code) = none) :
    (auditBank env code).sessionsOpened = 0 ∧
    (auditBank env code).sessionsClosed = 0 ∧
    (auditBank env code).persisted = [] ∧
    (auditBank env code).result =
      Except.error ("Bank with code " ++ code ++ " not found") := by
  unfold auditBank getBankByCode
  rw [h]
  exact ⟨rfl, rfl, rfl, rfl⟩

/-- Witness for targetNotFound_no_session_no_persist on the empty banks
collection. -/
theorem targetNotFound_no_session_no_persist_witness :
    (auditBank envEmptyBanks "BCH").sessionsOpened = 0 ∧
    (auditBank envEmptyBanks "BCH").sessionsClosed = 0 ∧
    (auditBank envEmptyBanks "BCH").persisted = [] ∧
    (auditBank envEmptyBanks "BCH").result =
      Except.error ("Bank with code " ++ "BCH" ++ " not found") :=
  targetNotFound_no_session_no_persist envEmptyBanks "BCH" rfl

/-- The finally block closes the browser on every exit path on which it was
opened: the session-close count equals the session-open count on every run. -/
theorem auditBank_sessions_balance (env : AuditEnv) (code : String) :
    (auditBank env code).sessionsClosed = (auditBank env code).sessionsOpened := by
  rcases h1 : getBankByCode env.banks code with e | bank
  · simp [auditBank, h1]
  · rcases h2 : env.launchOutcome with e | u
    · simp [auditBank, h1, h2]
    · rcases h3 : runExtraction env bank with e | r <;> simp [auditBank, h1, h2, h3]

/-- C2 counterexample: a run in which the target resolves but the browser
launch rejects; the error is raised after the target was resolved, yet no
audit result is produced or persisted and no session is closed, because the
launch happens before the try block of the source. -/
theorem launchError_no_failed_result_counterexample :
    getBankByCode envLaunchFail.banks "TEST" = Except.ok bankW ∧
    (auditBank envLaunchFail "TEST").result =
      Except.error "Failed to launch the browser process" ∧
    (auditBank envLaunchFail "TEST").persisted = [] ∧
    (auditBank envLaunchFail "TEST").sessionsClosed = 0 :=
  ⟨rfl, rfl, rfl, rfl⟩

/-- C2 amended: for every error raised after the browser session has been
opened (navigation failure, missing response, extraction failure), auditBank
persists exactly one audit result with status failed, risk score 100 and the
triggering error message, re-raises the error to its caller, and closes the
browser session; the close count balances the open count on every exit path.
A browser-launch failure, by contrast, happens before the try block and
propagates with nothing persisted. -/
theorem postLaunch_failure_persists_failed_result (env : AuditEnv) (code : String)
    (bank : IChileanBank) (e : String)
    (hbank : getBankByCode env.banks code = Except.ok bank)
    (hlaunch : env.launchOutcome = Except.ok ())
    (hrun : runExtraction env bank = Except.error e) :
    (auditBank env code).result = Except.error e ∧
    (auditBank env code).persisted = [mkFailedResult bank e] ∧
    (mkFailedResult bank e).status = AuditStatus.failed ∧
    (mkFailedResult bank e).riskScore = 100 ∧
    (mkFailedResult bank e).error = some e ∧
    (auditBank env code).sessionsClosed = 1 ∧
    (∀ env2 code2, (auditBank env2 code2).sessionsClosed = (auditBank env2 code2).sessionsOpened) := by
  have hall : auditBank env code =
      { result := Except.error e
        persisted := [mkFailedResult bank e]
        sessionsOpened := 1
        sessionsClosed := 1 } := by
    simp [auditBank, hbank, hlaunch, hrun]
  rw [hall]
  exact ⟨rfl, rfl, rfl, rfl, rfl, rfl, auditBank_sessions_balance⟩

/-- Witness for postLaunch_failure_persists_failed_result on the run whose
authentication extractor rejects after a successful navigation. -/
theorem postLaunch_failure_persists_failed_result_witness :
    (auditBank envAuthFail "TEST").result = Except.error "Protocol error" ∧
    (auditBank envAuthFail "TEST").persisted = [mkFailedResult bankW "Protocol error"] ∧
    (mkFailedResult bankW "Protocol error").status = AuditStatus.failed ∧
    (mkFailedResult bankW "Protocol error").riskScore = 100 ∧
    (mkFailedResult bankW "Protocol error").error = some "Protocol error" ∧
    (auditBank envAuthFail "TEST").sessionsClosed = 1 ∧
    (∀ env2 code2, (auditBank env2 code2).sessionsClosed = (auditBank env2 code2).sessionsOpened) :=
  postLaunch_failure_persists_failed_result envAuthFail "TEST" bankW "Protocol error"
    rfl rfl rfl

/-- C1 counterexample: a run in which navigation succeeded and the
authentication extractor rejects; the orchestrator does not isolate the
call: the audit aborts with the error re-raised, the persisted record is the
hard-coded failed one (its CSRF sub-result reports no token even though the
page carried the token value tok123), instead of a completed audit with only
the failing extractor degraded. -/
theorem extractorFailure_aborts_audit_counterexample :
    pageAuthFail.gotoOutcome = Except.ok (some respW) ∧
    (auditBank envAuthFail "TEST").result = Except.error "Protocol error" ∧
    (auditBank envAuthFail "TEST").persisted = [mkFailedResult bankW "Protocol error"] ∧
    (mkFailedResult bankW "Protocol error").status = AuditStatus.failed ∧
    pageAuthFail.csrfEval = Except.ok "tok123" ∧
    (mkFailedResult bankW "Protocol error").csrf.tokenPresent = false :=
  ⟨rfl, rfl, rfl, rfl, rfl, rfl⟩

/-- C1 amended: only the CSRF extractor is fault-isolated.  Its query is
caught locally, so any rejection yields the not-found record with grade F
and never escapes, and a run whose only failing primitive is the CSRF query
still completes.  A failure of the authentication extractor, by contrast,
aborts the whole audit: the orchestrator takes the failed path, persists the
single hard-coded failed record and re-raises the error. -/
theorem only_csrf_extractor_isolated (page : Page) (env : AuditEnv) (code : String)
    (bank : IChileanBank) (resp : HTTPResponse) (e : String) (bp bu : Bool)
    (ct : String) (ck : List Cookie) :
    (page.csrfEval = Except.error e →
      analyzeCSRF page = { tokenPresent := false, isProtected := false, grade := Grade.f }) ∧
    (getBankByCode env.banks code = Except.ok bank →
      env.launchOutcome = Except.ok () →
      env.newPageOutcome = Except.ok page →
      page.gotoOutcome = Except.ok (some resp) →
      analyzeAuthentication page = Except.error e →
      (auditBank env code).result = Except.error e ∧
      (auditBank env code).persisted = [mkFailedResult bank e]) ∧
    (getBankByCode env.banks code = Except.ok bank →
      env.launchOutcome = Except.ok () →
      env.newPageOutcome = Except.ok page →
      page.gotoOutcome = Except.ok (some resp) →
      page.passwordField = Except.ok bp →
      page.usernameField = Except.ok bu →
      page.content = Except.ok ct →
      page.cookies = Except.ok ck →
      page.csrfEval = Except.error e →
      ∃ r, (auditBank env code).result = Except.ok r ∧ r.status = AuditStatus.completed) := by
  refine ⟨?_, ?_, ?_⟩
  · intro h
    simp [analyzeCSRF, h, truthyStr]
  · intro hbank hlaunch hpage hgoto hauth
    have hrun : runExtraction env bank = Except.error e := by
      simp [runExtraction, hpage, hgoto, hauth]
    constructor
    · simp [auditBank, hbank, hlaunch, hrun]
    · simp [auditBank, hbank, hlaunch, hrun]
  · intro hbank hlaunch hpage hgoto hp hu hc hk hcsrf
    have hauth : analyzeAuthentication page = Except.ok (authFromSignals bp bu ct ck) := by
      simp [analyzeAuthentication, hp, hu, hc, hk]
    have hrun : runExtraction env bank = Except.ok
        { bankCode := bank.code
          bankName := bank.name
          loginUrl := bank.loginUrl
          ssl := analyzeSSL resp bank.loginUrl
          headers := analyzeSecurityHeaders page.capturedResponseHeaders
          authentication := authFromSignals bp bu ct ck
          csrf := analyzeCSRF page
          recommendations := (calculateRiskScore (analyzeSSL resp bank.loginUrl)
            (analyzeSecurityHeaders page.capturedResponseHeaders)
            (authFromSignals bp bu ct ck) (analyzeCSRF page)).2
          riskScore := (calculateRiskScore (analyzeSSL resp bank.loginUrl)
            (analyzeSecurityHeaders page.capturedResponseHeaders)
            (authFromSignals bp bu ct ck) (analyzeCSRF page)).1
          status := AuditStatus.completed } := by
      simp [runExtraction, hpage, hgoto, hauth]
    refine ⟨{ bankCode := bank.code
              bankName := bank.name
              loginUrl := bank.loginUrl
              ssl := analyzeSSL resp bank.loginUrl
              headers := analyzeSecurityHeaders page.capturedResponseHeaders
              authentication := authFromSignals bp bu ct ck
              csrf := analyzeCSRF page
              recommendations := (calculateRiskScore (analyzeSSL resp bank.loginUrl)
                (analyzeSecurityHeaders page.capturedResponseHeaders)
                (authFromSignals bp bu ct ck) (analyzeCSRF page)).2
              riskScore := (calculateRiskScore (analyzeSSL resp bank.loginUrl)
                (analyzeSecurityHeaders page.capturedResponseHeaders)
                (authFromSignals bp bu ct ck) (analyzeCSRF page)).1
              status := AuditStatus.completed }, ?_, rfl⟩
    simp [auditBank, hbank, hlaunch, hrun]

/-- Witness for only_csrf_extractor_isolated: the CSRF-rejecting page of the
envGood run completes, and the authentication-rejecting page of the
envAuthFail run aborts. -/
theorem only_csrf_extractor_isolated_witness :
    analyzeCSRF pageGood = { tokenPresent := false, isProtected := false, grade := Grade.f } ∧
    ((auditBank envAuthFail "TEST").result = Except.error "Protocol error" ∧
      (auditBank envAuthFail "TEST").persisted = [mkFailedResult bankW "Protocol error"]) ∧
    (∃ r, (auditBank envGood "TEST").result = Except.ok r ∧ r.status = AuditStatus.completed) :=
  ⟨(only_csrf_extractor_isolated pageGood envGood "TEST" bankW respW
      "failed to find element matching selector" true true
      "ingrese su token de seguridad" [{ secure := true, httpOnly := true }]).1 rfl,
   (only_csrf_extractor_isolated pageAuthFail envAuthFail "TEST" bankW respW
      "Protocol error" true true "" []).2.1 rfl rfl rfl rfl rfl,
   (only_csrf_extractor_isolated pageGood envGood "TEST" bankW respW
      "failed to find element matching selector" true true
      "ingrese su token de seguridad" [{ secure := true, httpOnly := true }]).2.2
      rfl rfl rfl rfl rfl rfl rfl rfl rfl⟩

end BankAudit
